import Mathlib

/-!
# Verification of pg_rage_terminator

A shallow embedding of `pg_rage_terminator.c`, a PostgreSQL background
worker that periodically terminates random client connections, together
with theorems about its behaviour.

The embedding covers:
* the two GUC parameters (`chance`, `interval`) and their declared bounds
  (`DefineCustomIntVariable` calls in `pg_rage_terminator_load_params`);
* the SQL query built by `pg_rage_terminator_build_query` and the
  semantics of its selection predicate
  `client_port IS NOT NULL AND ((random() * 100)::int < chance)`;
* one iteration of the control loop in `pg_rage_terminator_main`
  (latch wait result, signal flags, reload, terminate, scan) as a step
  function on an explicit worker state, and the loop as iterated steps.
-/

namespace PgRage

/-! ## Configuration and GUC parameter declarations -/

/-- The two live-tunable parameters, the globals `chance` and `interval`
of `pg_rage_terminator.c`. -/
structure Config where
  chance : Int
  interval : Int
  deriving DecidableEq, Repr

/-- One `DefineCustomIntVariable` declaration: default value and the
declared minimum/maximum bounds enforced by the GUC mechanism. -/
structure GucIntVar where
  varDefault : Int
  varMin : Int
  varMax : Int
  deriving DecidableEq, Repr

/-- The declaration of `pg_rage_terminator.chance` in
`pg_rage_terminator_load_params`: default 10, min 0, max 100. -/
def chance_guc : GucIntVar := ⟨10, 0, 100⟩

/-- The declaration of `pg_rage_terminator.interval` in
`pg_rage_terminator_load_params`: default 5, min -1, max 3600. -/
def interval_guc : GucIntVar := ⟨5, -1, 3600⟩

/-- The GUC mechanism accepts a value for an integer variable exactly
when it lies between the declared min and max bounds. -/
def guc_accepts (g : GucIntVar) (v : Int) : Bool :=
  decide (g.varMin ≤ v) && decide (v ≤ g.varMax)

/-- Worker defaults: `chance = 10`, `interval = 5`. -/
def default_config : Config := ⟨chance_guc.varDefault, interval_guc.varDefault⟩

/-! ## The kill query and its selection predicate -/

/-- The query string built by `pg_rage_terminator_build_query`, with the
current `chance` substituted for the `%d` placeholder. -/
def pg_rage_terminator_build_query (chance : Int) : String :=
  "SELECT " ++
  "pid, pg_terminate_backend(pid) as status, " ++
  "usename, datname, client_addr::text " ++
  "FROM pg_stat_activity " ++
  "WHERE client_port IS NOT NULL " ++
  "AND ((random() * 100)::int < " ++ toString chance ++ ") "

/-- Semantics of the SQL cast `::int` applied to the double-precision
value `random() * 100`: PostgreSQL rounds to the nearest integer
(idealised over the rationals as adding one half and taking the floor). -/
def sql_round_to_int (r : ℚ) : Int := ⌊r + 1 / 2⌋

/-- Semantics of the per-row predicate `((random() * 100)::int < chance)`,
where `r` is the value drawn for this row by `random() * 100`. -/
def row_selected (chance : Int) (r : ℚ) : Bool :=
  decide (sql_round_to_int r < chance)

/-- One row of `pg_stat_activity`, with the columns the query touches.
`client_port` is `NULL` for local / background sessions. -/
structure ActivityRow where
  pid : Int
  client_port : Option Int
  usename : Option String
  datname : Option String
  client_addr : Option String
  deriving DecidableEq, Repr

/-- The `client_port IS NOT NULL` condition: the connection has a
network-facing client. -/
def visible (row : ActivityRow) : Bool := row.client_port.isSome

/-- Semantics of one evaluation of the kill query over a snapshot of
`pg_stat_activity`: each row is paired with its independent draw of
`random() * 100`, and is returned exactly when it is visible and the
rounded draw is strictly below `chance`. -/
def scan_pass (chance : Int) (table : List (ActivityRow × ℚ)) : List ActivityRow :=
  (table.filter (fun p => visible p.1 && row_selected chance p.2)).map (fun p => p.1)

/-! ## The control loop of `pg_rage_terminator_main`

One loop iteration is modelled as a step function on an explicit worker
state: the GUC globals, the two `sig_atomic_t` flags, and the query
buffer `buf`. Per-iteration external inputs (latch result, signal
arrivals, the configuration read by `ProcessConfigFile`, the `SPI_execute`
result) are collected in an environment record.
-/

/-- The two signal flags `got_sighup` and `got_sigterm`, set by the
signal handlers and read by the loop. -/
structure Flags where
  got_sighup : Bool
  got_sigterm : Bool
  deriving DecidableEq, Repr

/-- The mutable state of the worker process observed by the loop:
the configuration globals, the signal flags and the query string `buf`. -/
structure WorkerState where
  cfg : Config
  flags : Flags
  buf : String
  deriving DecidableEq, Repr

/-- One result row of the kill query as fetched through SPI:
`pid`, the `pg_terminate_backend` status, `usename`, `datname`,
`client_addr` (the last three possibly NULL). -/
structure SpiRow where
  pid : Int
  status : Bool
  usename : Option String
  datname : Option String
  client_addr : Option String
  deriving DecidableEq, Repr

/-- External inputs consumed by one loop iteration: whether `WaitLatch`
reported postmaster death, which signals arrived before the flags are
inspected, the configuration that `ProcessConfigFile` would install, and
the `SPI_execute` return code and result rows. -/
structure IterEnv where
  postmaster_death : Bool
  sighup_arrival : Bool
  sigterm_arrival : Bool
  reload_cfg : Config
  spi_ret : Int
  spi_rows : List SpiRow
  deriving DecidableEq, Repr

/-- `SPI_OK_SELECT` from `executor/spi.h`. -/
def SPI_OK_SELECT : Int := 5

/-- How the process leaves the loop: `proc_exit` with a code, or the
`elog(FATAL, "Error when trying to rage")` escalation. -/
inductive ExitKind where
  | procExit (code : Int)
  | fatalRage
  deriving DecidableEq, Repr

/-- Observable events of one iteration, in program order: the LOG lines
and the execution of the kill query. -/
inductive Event where
  | logSighupProcessed
  | logSigtermProcessed
  | logNothingToDo
  | logTerminated (pid : Int) (datname : String) (usename : String) (client_addr : String)
  | scanExecuted (query : String)
  deriving DecidableEq, Repr

/-- The `sleep_interval` computation at the top of the loop body:
a fixed 10-second fallback when `interval` is 0, else `interval`. -/
def sleep_interval (interval : Int) : Int :=
  if interval = 0 then 10 else interval

/-- Signal arrivals set the corresponding flags (the handlers
`pg_rage_terminator_sighup` / `pg_rage_terminator_sigterm` only ever set
their flag to true, so arrivals are coalesced with OR). -/
def applySignals (s : WorkerState) (env : IterEnv) : WorkerState :=
  { s with flags := ⟨s.flags.got_sighup || env.sighup_arrival,
                     s.flags.got_sigterm || env.sigterm_arrival⟩ }

/-- The `if (got_sighup)` block: save `old_chance`, install the reloaded
configuration, clear `got_sighup`, log, and rebuild `buf` only when the
chance changed. Returns the new state and the events emitted. -/
def reload_step (s : WorkerState) (env : IterEnv) : WorkerState × List Event :=
  if s.flags.got_sighup then
    let old_chance := s.cfg.chance
    let s1 : WorkerState :=
      { cfg := env.reload_cfg
        flags := ⟨false, s.flags.got_sigterm⟩
        buf := s.buf }
    if old_chance ≠ env.reload_cfg.chance then
      ({ s1 with buf := pg_rage_terminator_build_query env.reload_cfg.chance },
        [Event.logSighupProcessed])
    else
      (s1, [Event.logSighupProcessed])
  else
    (s, [])

/-- One row's `elog(LOG, "Rage terminated connection with PID %d %s/%s/%s",
pid, datname, usename, client_addr)`: NULL columns print as the literal
"none"; the fetched `status` column is never read. -/
def log_row (r : SpiRow) : Event :=
  Event.logTerminated r.pid ((r.datname).getD ("none"))
    ((r.usename).getD ("none")) ((r.client_addr).getD ("none"))

/-- The scan portion of an iteration: `SPI_execute(buf.data, false, 0)`;
a return code other than `SPI_OK_SELECT` raises `elog(FATAL)` at once,
otherwise every returned row is logged and the loop goes on. -/
def scan_step (s : WorkerState) (env : IterEnv) : Option ExitKind × List Event :=
  if env.spi_ret ≠ SPI_OK_SELECT then
    (some ExitKind.fatalRage, [Event.scanExecuted s.buf])
  else
    (none, Event.scanExecuted s.buf :: (env.spi_rows).map log_row)

/-- The remainder of an iteration after the `got_sighup` block, applied
to the state `s1` and events `evs1` that block produced: the
`got_sigterm` exit, the `0 == interval` early `continue`, then the scan. -/
def step_rest (s1 : WorkerState) (evs1 : List Event) (env : IterEnv) :
    Option ExitKind × WorkerState × List Event :=
  if s1.flags.got_sigterm then
    (some (ExitKind.procExit 0), s1, evs1 ++ [Event.logSigtermProcessed])
  else if s1.cfg.interval = 0 then
    (none, s1, evs1 ++ [Event.logNothingToDo])
  else
    ((scan_step s1 env).1, s1, evs1 ++ (scan_step s1 env).2)

/-- One iteration of the `while (!got_sigterm)` body after `WaitLatch` /
`ResetLatch`: emergency bailout on postmaster death, then the
`got_sighup` block, then the `got_sigterm` block, then the
`0 == interval` early `continue`, then the scan. Returns the exit taken
(if any), the final state, and the events in program order. -/
def step (s : WorkerState) (env : IterEnv) : Option ExitKind × WorkerState × List Event :=
  if env.postmaster_death then
    (some (ExitKind.procExit 1), applySignals s env, [])
  else
    step_rest (reload_step (applySignals s env) env).1
      (reload_step (applySignals s env) env).2 env

/-- The loop itself, driven by a list of per-iteration environments
(finite fuel): the `while` guard re-checks `got_sigterm` before each
iteration (falling out of the loop is `proc_exit(0)` with no further
log line), then runs `step`; a step that exits stops the loop. -/
def run : List IterEnv → WorkerState → Option ExitKind × WorkerState × List Event
  | [], s => (none, s, [])
  | env :: rest, s =>
    if s.flags.got_sigterm then
      (some (ExitKind.procExit 0), s, [])
    else
      match step s env with
      | (some k, s1, evs) => (some k, s1, evs)
      | (none, s1, evs) =>
        let r := run rest s1
        (r.1, r.2.1, evs ++ r.2.2)

/-- The worker state right after startup: default configuration, clear
flags, and `buf` built once by the initial `pg_rage_terminator_build_query`
call in `pg_rage_terminator_main`. -/
def initial_state : WorkerState :=
  { cfg := default_config
    flags := ⟨false, false⟩
    buf := pg_rage_terminator_build_query default_config.chance }

/-- The query buffer in use always corresponds to the `chance` value of
the current configuration. -/
def query_inv (s : WorkerState) : Prop :=
  s.buf = pg_rage_terminator_build_query s.cfg.chance

/-- A fixed visible connection used to evaluate the predicate at the
boundary draw 99.5. -/
def high_draw_row : ActivityRow :=
  ⟨4242, some 50614, some "alice", some "postgres", some "10.0.0.7"⟩

/-- A worker state with a pending `got_sigterm` flag and otherwise
freshly started. -/
def sigterm_pending_state : WorkerState :=
  { cfg := default_config
    flags := ⟨false, true⟩
    buf := pg_rage_terminator_build_query default_config.chance }

/-- A worker state with a pending `got_sighup` flag and otherwise
freshly started. -/
def sighup_pending_state : WorkerState :=
  { cfg := default_config
    flags := ⟨true, false⟩
    buf := pg_rage_terminator_build_query default_config.chance }

/-- A worker state whose configuration has `interval = 0` (polling
disabled). -/
def interval_zero_state : WorkerState :=
  { cfg := ⟨10, 0⟩
    flags := ⟨false, false⟩
    buf := pg_rage_terminator_build_query 10 }

/-- An uneventful iteration environment: no postmaster death, no signal
arrivals, a reload that would restore the defaults, a successful scan
returning no rows. -/
def quiet_env : IterEnv :=
  { postmaster_death := false
    sighup_arrival := false
    sigterm_arrival := false
    reload_cfg := default_config
    spi_ret := SPI_OK_SELECT
    spi_rows := [] }

/-- A quiet iteration environment whose reload keeps `interval = 0`. -/
def idle_env : IterEnv :=
  { quiet_env with reload_cfg := ⟨10, 0⟩ }

/-- An iteration environment delivering a reload that changes both
parameters. -/
def reload_env : IterEnv :=
  { quiet_env with sighup_arrival := true, reload_cfg := ⟨42, 7⟩ }

/-- An iteration environment whose `SPI_execute` call fails
(`SPI_ERROR_ARGUMENT` is negative, in particular not `SPI_OK_SELECT`). -/
def fail_env : IterEnv :=
  { quiet_env with spi_ret := -1 }

/-- An iteration environment whose scan succeeds and returns two rows,
one with all columns present and one with NULL `usename`, `datname` and
`client_addr`. -/
def rows_env : IterEnv :=
  { quiet_env with
      spi_rows := [⟨101, true, some "bob", some "appdb", some "192.168.0.9"⟩,
                   ⟨102, false, none, none, none⟩] }

end PgRage

namespace PgRage

/-! ## Properties of the selection predicate -/

/-- C1: with `chance = 100` the predicate is `((random() * 100)::int < 100)`;
the draw 99.5 (a value of `random() * 100` in `[0,100)`) rounds to 100 and
fails the strict comparison, so this visible connection is not selected,
contradicting the documented guarantee that `chance = 100` kills every
backend. -/
theorem chance_hundred_misses_high_draw :
    visible high_draw_row = true ∧
    (0 : ℚ) ≤ 199 / 2 ∧ (199 / 2 : ℚ) < 100 ∧
    scan_pass 100 [(high_draw_row, 199 / 2)] = [] := by
  refine ⟨rfl, by norm_num, by norm_num, ?_⟩
  simp [scan_pass, row_selected, sql_round_to_int, visible, high_draw_row]
  rw [show (199 / 2 + 2⁻¹ : ℚ) = ((100 : ℤ) : ℚ) by norm_num]
  rw [Int.floor_intCast]

/-- C7: with `chance = 0` the predicate is `((random() * 100)::int < 0)`;
a nonnegative draw rounds to a nonnegative integer, so no row of any
non-empty snapshot is ever selected. -/
theorem chance_zero_selects_nothing (table : List (ActivityRow × ℚ))
    (_hne : table ≠ [])
    (hdraws : ∀ p ∈ table, (0 : ℚ) ≤ p.2 ∧ p.2 < 100) :
    scan_pass 0 table = [] := by
  unfold scan_pass
  rw [List.map_eq_nil_iff]
  rw [List.filter_eq_nil_iff]
  intro p hp
  have h0 : (0 : ℚ) ≤ p.2 := (hdraws p hp).1
  have hfloor : (0 : ℤ) ≤ sql_round_to_int p.2 := by
    unfold sql_round_to_int
    exact Int.floor_nonneg.mpr (by linarith)
  simp [row_selected]
  intro _
  omega

/-- Witness for `chance_zero_selects_nothing` on a concrete one-row
snapshot with draw 7/2. -/
theorem chance_zero_selects_nothing_witness :
    scan_pass 0 [(high_draw_row, 7 / 2)] = [] :=
  chance_zero_selects_nothing [(high_draw_row, 7 / 2)] (by decide)
    (by intro p hp; simp at hp; rw [hp]; norm_num)

/-- C10: the cast `(random() * 100)::int` rounds to the nearest integer
before the strict comparison with `chance`, so for `chance = c` in
`[1,100]` a draw `r` with `c - 1/2 ≤ r < c` already rounds up to `c` and
is rejected; in fact a row is selected exactly when `r < c - 1/2`, so
under a uniform draw on `[0,100)` the per-row selection probability is
`(c - 1/2)/100`, not `c/100`. -/
theorem round_to_nearest_shifts_selection (c : Int) (r : ℚ)
    (_hc1 : 1 ≤ c) (_hc2 : c ≤ 100) (_hr0 : (0 : ℚ) ≤ r) (_hr1 : r < 100) :
    ((c : ℚ) - 1 / 2 ≤ r → r < (c : ℚ) → row_selected c r = false) ∧
    (row_selected c r = true ↔ r < (c : ℚ) - 1 / 2) := by
  have key : row_selected c r = true ↔ r < (c : ℚ) - 1 / 2 := by
    unfold row_selected sql_round_to_int
    rw [decide_eq_true_eq, Int.floor_lt]
    constructor
    · intro h; linarith
    · intro h; linarith
  refine ⟨?_, key⟩
  intro hle _
  cases h : row_selected c r with
  | false => rfl
  | true =>
    have := key.mp h
    linarith

/-- Witness for `round_to_nearest_shifts_selection` at `c = 50`,
`r = 199/4 = 49.75`: the draw lies in `[49.5, 50)` yet the row is not
selected. -/
theorem round_to_nearest_shifts_selection_witness :
    row_selected 50 (199 / 4) = false ∧ ¬ (row_selected 50 (199 / 4) = true) := by
  have h := round_to_nearest_shifts_selection 50 (199 / 4)
    (by norm_num) (by norm_num) (by norm_num) (by norm_num)
  have hf : row_selected 50 (199 / 4) = false :=
    h.1 (by norm_num) (by norm_num)
  exact ⟨hf, by rw [hf]; exact Bool.false_ne_true⟩

/-! ## GUC bounds -/

/-- C2: the `chance` GUC is declared with bounds 0 and 100, so the GUC
mechanism rejects -1 and 101 while accepting 0 and 100; but the
`interval` GUC is declared with minimum -1, so the value -1 is accepted
and the daemon can observe a negative interval, contrary to the
documented range 0 to 3600. -/
theorem guc_bounds_allow_negative_interval :
    guc_accepts chance_guc (-1) = false ∧
    guc_accepts chance_guc 0 = true ∧
    guc_accepts chance_guc 100 = true ∧
    guc_accepts chance_guc 101 = false ∧
    guc_accepts interval_guc (-1) = true ∧
    ((-1 : Int) < 0) := by
  decide

/-! ## Helper lemmas about one loop iteration -/

theorem applySignals_flags (s : WorkerState) (env : IterEnv) :
    (applySignals s env).flags =
      ⟨s.flags.got_sighup || env.sighup_arrival,
       s.flags.got_sigterm || env.sigterm_arrival⟩ := rfl

theorem applySignals_cfg (s : WorkerState) (env : IterEnv) :
    (applySignals s env).cfg = s.cfg := rfl

theorem applySignals_buf (s : WorkerState) (env : IterEnv) :
    (applySignals s env).buf = s.buf := rfl

theorem reload_step_no_sighup (s : WorkerState) (env : IterEnv)
    (h : s.flags.got_sighup = false) : reload_step s env = (s, []) := by
  simp [reload_step, h]

theorem reload_step_sighup (s : WorkerState) (env : IterEnv)
    (h : s.flags.got_sighup = true) :
    reload_step s env =
      ({ cfg := env.reload_cfg
         flags := ⟨false, s.flags.got_sigterm⟩
         buf := if s.cfg.chance ≠ env.reload_cfg.chance
                then pg_rage_terminator_build_query env.reload_cfg.chance
                else s.buf }, [Event.logSighupProcessed]) := by
  by_cases hc : s.cfg.chance ≠ env.reload_cfg.chance
  · simp [reload_step, h, hc]
  · simp [reload_step, h, hc]

theorem reload_step_sigterm_pres (s : WorkerState) (env : IterEnv) :
    ((reload_step s env).1).flags.got_sigterm = s.flags.got_sigterm := by
  cases h : s.flags.got_sighup
  · rw [reload_step_no_sighup s env h]
  · rw [reload_step_sighup s env h]

theorem reload_step_events (s : WorkerState) (env : IterEnv) :
    (reload_step s env).2 = [] ∨
    (reload_step s env).2 = [Event.logSighupProcessed] := by
  cases h : s.flags.got_sighup
  · left; rw [reload_step_no_sighup s env h]
  · right; rw [reload_step_sighup s env h]

theorem reload_step_interval (s : WorkerState) (env : IterEnv) :
    ((reload_step s env).1).cfg.interval =
      (if s.flags.got_sighup then env.reload_cfg.interval else s.cfg.interval) := by
  cases h : s.flags.got_sighup
  · rw [reload_step_no_sighup s env h]; simp [h]
  · rw [reload_step_sighup s env h]; simp [h]

theorem step_death (s : WorkerState) (env : IterEnv)
    (h : env.postmaster_death = true) :
    step s env = (some (ExitKind.procExit 1), applySignals s env, []) := by
  simp [step, h]

theorem step_no_death (s : WorkerState) (env : IterEnv)
    (h : env.postmaster_death = false) :
    step s env = step_rest (reload_step (applySignals s env) env).1
      (reload_step (applySignals s env) env).2 env := by
  simp [step, h]

theorem step_rest_sigterm (s1 : WorkerState) (evs1 : List Event) (env : IterEnv)
    (h : s1.flags.got_sigterm = true) :
    step_rest s1 evs1 env =
      (some (ExitKind.procExit 0), s1, evs1 ++ [Event.logSigtermProcessed]) := by
  simp [step_rest, h]

theorem step_rest_interval_zero (s1 : WorkerState) (evs1 : List Event)
    (env : IterEnv) (h : s1.flags.got_sigterm = false)
    (h0 : s1.cfg.interval = 0) :
    step_rest s1 evs1 env = (none, s1, evs1 ++ [Event.logNothingToDo]) := by
  simp [step_rest, h, h0]

theorem step_rest_scan (s1 : WorkerState) (evs1 : List Event) (env : IterEnv)
    (h : s1.flags.got_sigterm = false) (h0 : s1.cfg.interval ≠ 0) :
    step_rest s1 evs1 env =
      ((scan_step s1 env).1, s1, evs1 ++ (scan_step s1 env).2) := by
  simp [step_rest, h, h0]

theorem step_rest_events_head (s1 : WorkerState) (e0 : Event)
    (evs : List Event) (env : IterEnv) :
    ((step_rest s1 (e0 :: evs) env).2.2).head? = some e0 := by
  unfold step_rest
  split
  · rfl
  · split
    · rfl
    · rfl

theorem step_rest_state (s1 : WorkerState) (evs1 : List Event) (env : IterEnv) :
    (step_rest s1 evs1 env).2.1 = s1 := by
  unfold step_rest
  split
  · rfl
  · split
    · rfl
    · rfl

theorem scan_step_events (s1 : WorkerState) (env : IterEnv) (q : String)
    (hq : Event.scanExecuted q ∈ (scan_step s1 env).2) : q = s1.buf := by
  unfold scan_step at hq
  split at hq
  · simp at hq
    exact hq
  · simp at hq
    rcases hq with hq | hq
    · exact hq
    · exfalso
      rcases hq with ⟨r, _, habs⟩
      simp [log_row] at habs

/-! ## Control-loop claims -/

/-- C3: after the wait returns, the loop body checks, in order, the
postmaster-death bit (immediate `proc_exit(1)` before any log line or
scan of the iteration), then `got_sighup`, then `got_sigterm` (clean
`proc_exit(0)`); hence a terminate notification pending at a wakeup makes
that very iteration exit without the kill query being executed, and when
a reload is also pending it is processed (and logged) first. -/
theorem loop_check_order (s : WorkerState) (env : IterEnv) :
    (env.postmaster_death = true →
      step s env = (some (ExitKind.procExit 1), applySignals s env, [])) ∧
    (env.postmaster_death = false →
      (s.flags.got_sigterm || env.sigterm_arrival) = true →
      (step s env).1 = some (ExitKind.procExit 0) ∧
      ∀ q, Event.scanExecuted q ∉ (step s env).2.2) ∧
    (env.postmaster_death = false →
      (s.flags.got_sighup || env.sighup_arrival) = true →
      ((step s env).2.2).head? = some Event.logSighupProcessed) := by
  refine ⟨fun h => step_death s env h, ?_, ?_⟩
  · intro hd ht
    rw [step_no_death s env hd]
    have hterm : ((reload_step (applySignals s env) env).1).flags.got_sigterm = true := by
      rw [reload_step_sigterm_pres]
      exact ht
    rw [step_rest_sigterm _ _ _ hterm]
    refine ⟨rfl, ?_⟩
    intro q hq
    rcases reload_step_events (applySignals s env) env with he | he <;>
      · rw [he] at hq
        simp at hq
  · intro hd hup
    rw [step_no_death s env hd]
    have hup1 : (applySignals s env).flags.got_sighup = true := hup
    rw [reload_step_sighup _ env hup1]
    exact step_rest_events_head _ _ _ _

/-- Witness for `loop_check_order`: with `got_sigterm` pending and no
postmaster death, the iteration exits with code 0 and never executes the
kill query. -/
theorem loop_check_order_witness :
    (step sigterm_pending_state quiet_env).1 = some (ExitKind.procExit 0) ∧
    Event.scanExecuted sigterm_pending_state.buf ∉
      (step sigterm_pending_state quiet_env).2.2 := by
  have h := (loop_check_order sigterm_pending_state quiet_env).2.1 rfl rfl
  exact ⟨h.1, h.2 _⟩

theorem step_interval_zero_spec (s : WorkerState) (env : IterEnv)
    (h0 : s.cfg.interval = 0) (henv : env.reload_cfg.interval = 0) :
    (∀ q, Event.scanExecuted q ∉ (step s env).2.2) ∧
    ((step s env).2.1).cfg.interval = 0 := by
  cases hd : env.postmaster_death
  · rw [step_no_death s env hd]
    have hint : ((reload_step (applySignals s env) env).1).cfg.interval = 0 := by
      rw [reload_step_interval]
      split
      · exact henv
      · rw [applySignals_cfg]; exact h0
    cases ht : ((reload_step (applySignals s env) env).1).flags.got_sigterm
    · rw [step_rest_interval_zero _ _ _ ht hint]
      constructor
      · intro q hq
        rcases reload_step_events (applySignals s env) env with he | he <;>
          · rw [he] at hq
            simp at hq
      · exact hint
    · rw [step_rest_sigterm _ _ _ ht]
      constructor
      · intro q hq
        rcases reload_step_events (applySignals s env) env with he | he <;>
          · rw [he] at hq
            simp at hq
      · exact hint
  · rw [step_death s env hd]
    constructor
    · intro q hq
      simp at hq
    · rw [applySignals_cfg]; exact h0

theorem run_no_scan_of_interval_zero (envs : List IterEnv) :
    ∀ s : WorkerState, s.cfg.interval = 0 →
    (∀ e ∈ envs, e.reload_cfg.interval = 0) →
    ∀ q, Event.scanExecuted q ∉ (run envs s).2.2 := by
  induction envs with
  | nil =>
    intro s _ _ q hq
    simp [run] at hq
  | cons e rest ih =>
    intro s h0 hall q hq
    have hspec := step_interval_zero_spec s e h0 (hall e (by simp))
    simp only [run] at hq
    cases hb : s.flags.got_sigterm
    · rw [hb] at hq
      simp only [Bool.false_eq_true, if_false] at hq
      rcases hstep : step s e with ⟨k, s1, evs⟩
      rw [hstep] at hq hspec
      cases k with
      | some k1 =>
        simp only at hq
        exact hspec.1 q hq
      | none =>
        simp only [List.mem_append] at hq
        rcases hq with hq | hq
        · exact hspec.1 q hq
        · exact ih s1 hspec.2 (fun e2 he2 => hall e2 (by simp [he2])) q hq
    · rw [hb] at hq
      simp at hq

/-- C4: with `interval = 0` (kept 0 by any reload delivered meanwhile)
the kill query is never executed, however many wait cycles elapse; the
wait instead uses the fixed 10-second fallback, and a pending terminate
or reload notification is still acted upon in the disabled state. -/
theorem interval_zero_disables_scanning (envs : List IterEnv) (s : WorkerState)
    (h0 : s.cfg.interval = 0) (hall : ∀ e ∈ envs, e.reload_cfg.interval = 0) :
    (∀ q, Event.scanExecuted q ∉ (run envs s).2.2) ∧
    sleep_interval 0 = 10 ∧
    (∀ env : IterEnv, env.postmaster_death = false →
      (s.flags.got_sigterm || env.sigterm_arrival) = true →
      (step s env).1 = some (ExitKind.procExit 0)) ∧
    (∀ env : IterEnv, env.postmaster_death = false →
      (s.flags.got_sighup || env.sighup_arrival) = true →
      ((step s env).2.1).cfg = env.reload_cfg ∧
      ((step s env).2.1).flags.got_sighup = false) := by
  refine ⟨run_no_scan_of_interval_zero envs s h0 hall, rfl, ?_, ?_⟩
  · intro env hd ht
    rw [step_no_death s env hd]
    have hterm : ((reload_step (applySignals s env) env).1).flags.got_sigterm = true := by
      rw [reload_step_sigterm_pres]
      exact ht
    rw [step_rest_sigterm _ _ _ hterm]
  · intro env hd hup
    rw [step_no_death s env hd]
    rw [step_rest_state]
    have hup1 : (applySignals s env).flags.got_sighup = true := hup
    rw [reload_step_sighup _ env hup1]
    exact ⟨rfl, rfl⟩

/-- Witness for `interval_zero_disables_scanning`: one disabled cycle in
a quiet environment executes no kill query and the fallback wait is 10
seconds. -/
theorem interval_zero_disables_scanning_witness :
    Event.scanExecuted interval_zero_state.buf ∉
      (run [idle_env] interval_zero_state).2.2 ∧
    sleep_interval 0 = 10 := by
  have h := interval_zero_disables_scanning [idle_env] interval_zero_state rfl
    (by intro e he; simp at he; rw [he]; rfl)
  exact ⟨h.1 _, h.2.1⟩

theorem reload_step_inv (s : WorkerState) (env : IterEnv)
    (hinv : query_inv s) : query_inv ((reload_step s env).1) := by
  cases h : s.flags.got_sighup
  · rw [reload_step_no_sighup s env h]
    exact hinv
  · rw [reload_step_sighup s env h]
    unfold query_inv
    by_cases hc : s.cfg.chance ≠ env.reload_cfg.chance
    · rw [if_pos hc]
    · push_neg at hc
      simp only [ne_eq, hc, not_true_eq_false, if_false]
      rw [hinv, hc]

/-- C5: a reload rebuilds the query buffer exactly when the applied
`chance` differs from the previous one (an interval-only change keeps the
buffer untouched); the buffer invariantly equals the query built from the
current `chance`, from startup on, and any query the scan executes is the
buffer of the state that iteration ends in. -/
theorem query_template_tracks_chance (s : WorkerState) (env : IterEnv)
    (hinv : query_inv s) :
    query_inv (step s env).2.1 ∧
    (env.postmaster_death = false →
      (s.flags.got_sighup || env.sighup_arrival) = true →
      ((step s env).2.1).buf =
        (if s.cfg.chance ≠ env.reload_cfg.chance
         then pg_rage_terminator_build_query env.reload_cfg.chance
         else s.buf)) ∧
    (∀ q, Event.scanExecuted q ∈ (step s env).2.2 → q = ((step s env).2.1).buf) ∧
    query_inv initial_state := by
  refine ⟨?_, ?_, ?_, rfl⟩
  · cases hd : env.postmaster_death
    · rw [step_no_death s env hd, step_rest_state]
      exact reload_step_inv _ env hinv
    · rw [step_death s env hd]
      exact hinv
  · intro hd hup
    rw [step_no_death s env hd, step_rest_state]
    have hup1 : (applySignals s env).flags.got_sighup = true := hup
    rw [reload_step_sighup _ env hup1]
    simp only [applySignals_cfg, applySignals_buf]
  · intro q hq
    cases hd : env.postmaster_death
    · rw [step_no_death s env hd] at hq ⊢
      rw [step_rest_state]
      cases ht : ((reload_step (applySignals s env) env).1).flags.got_sigterm
      · by_cases h0 : ((reload_step (applySignals s env) env).1).cfg.interval = 0
        · rw [step_rest_interval_zero _ _ _ ht h0] at hq
          exfalso
          rcases reload_step_events (applySignals s env) env with he | he <;>
            · rw [he] at hq
              simp at hq
        · rw [step_rest_scan _ _ _ ht h0] at hq
          simp only [List.mem_append] at hq
          rcases hq with hq | hq
          · exfalso
            rcases reload_step_events (applySignals s env) env with he | he <;>
              · rw [he] at hq
                simp at hq
          · exact scan_step_events _ env q hq
      · rw [step_rest_sigterm _ _ _ ht] at hq
        exfalso
        rcases reload_step_events (applySignals s env) env with he | he <;>
          · rw [he] at hq
            simp at hq
    · rw [step_death s env hd] at hq
      simp at hq

/-- Witness for `query_template_tracks_chance`: a reload that changes
`chance` from 10 to 42 leaves the state satisfying the query invariant. -/
theorem query_template_tracks_chance_witness :
    query_inv (step initial_state reload_env).2.1 :=
  (query_template_tracks_chance initial_state reload_env rfl).1

theorem step_quiet_scan (s : WorkerState) (env : IterEnv)
    (hd : env.postmaster_death = false)
    (hup : s.flags.got_sighup = false) (hupa : env.sighup_arrival = false)
    (ht : s.flags.got_sigterm = false) (hta : env.sigterm_arrival = false)
    (hi : s.cfg.interval ≠ 0) :
    step s env = ((scan_step (applySignals s env) env).1, applySignals s env,
      (scan_step (applySignals s env) env).2) := by
  have h1 : (applySignals s env).flags.got_sighup = false := by
    rw [applySignals_flags]
    show (s.flags.got_sighup || env.sighup_arrival) = false
    rw [hup, hupa]
    rfl
  have h2 : (applySignals s env).flags.got_sigterm = false := by
    rw [applySignals_flags]
    show (s.flags.got_sigterm || env.sigterm_arrival) = false
    rw [ht, hta]
    rfl
  rw [step_no_death s env hd, reload_step_no_sighup _ env h1]
  rw [step_rest_scan _ _ env h2 hi]
  rw [List.nil_append]

/-- C6: a failing `SPI_execute` (return code other than `SPI_OK_SELECT`)
makes the iteration escalate with `elog(FATAL)` at once, logging no row
and attempting no retry; the per-row `pg_terminate_backend` status is
never inspected, so a row whose termination failed is logged exactly like
a successful one and the loop continues. -/
theorem scan_failure_fatal (s : WorkerState) (env : IterEnv)
    (hd : env.postmaster_death = false)
    (hup : s.flags.got_sighup = false) (hupa : env.sighup_arrival = false)
    (ht : s.flags.got_sigterm = false) (hta : env.sigterm_arrival = false)
    (hi : s.cfg.interval ≠ 0) :
    (env.spi_ret ≠ SPI_OK_SELECT →
      (step s env).1 = some ExitKind.fatalRage ∧
      (step s env).2.2 = [Event.scanExecuted s.buf]) ∧
    (env.spi_ret = SPI_OK_SELECT →
      (step s env).1 = none ∧
      (step s env).2.2 = Event.scanExecuted s.buf :: (env.spi_rows).map log_row) ∧
    (∀ r : SpiRow, ∀ b : Bool, log_row { r with status := b } = log_row r) := by
  have hq := step_quiet_scan s env hd hup hupa ht hta hi
  refine ⟨?_, ?_, ?_⟩
  · intro hret
    rw [hq]
    unfold scan_step
    rw [if_pos hret]
    exact ⟨rfl, rfl⟩
  · intro hret
    rw [hq]
    unfold scan_step
    rw [if_neg (by rw [hret]; exact fun h => h rfl)]
    exact ⟨rfl, rfl⟩
  · intro r b
    cases r
    rfl

/-- Witness for `scan_failure_fatal`: a failing scan (`SPI_execute`
returning -1) in an otherwise quiet iteration ends in the FATAL
escalation. -/
theorem scan_failure_fatal_witness :
    (step initial_state fail_env).1 = some ExitKind.fatalRage := by
  have h := scan_failure_fatal initial_state fail_env rfl rfl rfl rfl rfl
    (by decide)
  exact (h.1 (by decide)).1

/-- C8: a successful scan emits exactly one log record per returned row,
whatever its termination status; the record carries the pid and prints
each of `datname`, `usename` and `client_addr` as its value, or as the
literal "none" when the column is NULL. -/
theorem one_log_record_per_row (s : WorkerState) (env : IterEnv)
    (hd : env.postmaster_death = false)
    (hup : s.flags.got_sighup = false) (hupa : env.sighup_arrival = false)
    (ht : s.flags.got_sigterm = false) (hta : env.sigterm_arrival = false)
    (hi : s.cfg.interval ≠ 0) (hok : env.spi_ret = SPI_OK_SELECT) :
    (step s env).2.2 = Event.scanExecuted s.buf :: (env.spi_rows).map log_row ∧
    ((env.spi_rows).map log_row).length = (env.spi_rows).length ∧
    (∀ r ∈ env.spi_rows,
      log_row r = Event.logTerminated r.pid ((r.datname).getD ("none"))
        ((r.usename).getD ("none")) ((r.client_addr).getD ("none"))) ∧
    (∀ r : SpiRow, ∀ b : Bool, log_row { r with status := b } = log_row r) := by
  refine ⟨?_, List.length_map _ _, ?_, ?_⟩
  · rw [step_quiet_scan s env hd hup hupa ht hta hi]
    unfold scan_step
    rw [if_neg (by rw [hok]; exact fun h => h rfl)]
    rfl
  · intro r _
    rfl
  · intro r b
    cases r
    rfl

/-- Witness for `one_log_record_per_row`: a two-row result (one row all
columns present, one row all NULL) produces the scan event followed by
the two expected log records. -/
theorem one_log_record_per_row_witness :
    (step initial_state rows_env).2.2 =
      [Event.scanExecuted initial_state.buf,
       Event.logTerminated 101 ("appdb") ("bob") ("192.168.0.9"),
       Event.logTerminated 102 ("none") ("none") ("none")] := by
  have h := (one_log_record_per_row initial_state rows_env rfl rfl rfl rfl rfl
    (by decide) rfl).1
  rw [h]
  rfl

/-- C9 counterexample: with `got_sigterm` pending in a quiet iteration,
the loop takes the terminate exit but the flag is still set in the final
state — the code never assigns `got_sigterm = false`, it just calls
`proc_exit(0)`. -/
theorem terminate_flag_never_cleared :
    (step sigterm_pending_state quiet_env).1 = some (ExitKind.procExit 0) ∧
    ((step sigterm_pending_state quiet_env).2.1).flags.got_sigterm = true := by
  exact ⟨rfl, rfl⟩

/-- C9 (amended): the reload flag is cleared synchronously when the
reload is applied; the terminate flag is never cleared — acting on it
exits the process with the flag still set. -/
theorem flag_clearing_discipline (s : WorkerState) (env : IterEnv)
    (hd : env.postmaster_death = false) :
    ((s.flags.got_sighup || env.sighup_arrival) = true →
      ((step s env).2.1).flags.got_sighup = false) ∧
    ((s.flags.got_sigterm || env.sigterm_arrival) = true →
      (step s env).1 = some (ExitKind.procExit 0) ∧
      ((step s env).2.1).flags.got_sigterm = true) := by
  constructor
  · intro hup
    rw [step_no_death s env hd, step_rest_state]
    have hup1 : (applySignals s env).flags.got_sighup = true := hup
    rw [reload_step_sighup _ env hup1]
  · intro ht
    rw [step_no_death s env hd]
    have hterm : ((reload_step (applySignals s env) env).1).flags.got_sigterm = true := by
      rw [reload_step_sigterm_pres]
      exact ht
    rw [step_rest_sigterm _ _ _ hterm]
    exact ⟨rfl, hterm⟩

/-- Witness for `flag_clearing_discipline`: a pending reload in a quiet
iteration leaves `got_sighup` cleared. -/
theorem flag_clearing_discipline_witness :
    ((step sighup_pending_state quiet_env).2.1).flags.got_sighup = false :=
  (flag_clearing_discipline sighup_pending_state quiet_env rfl).1 rfl

end PgRage
